import Mathlib

/-!
Shallow embedding of `packages/jupyterlab-manager/src/renderer.ts`
(`WidgetRenderer`), a mime renderer adapter bridging a notebook host and
a widget manager.

The TypeScript class state is modelled as an explicit record
(`RendererState`).  Asynchronous execution is sequentialised: a render
run is a pure function from the adapter state, the mime bundle and an
oracle describing the external widget manager's responses
(`ManagerOracle`) to a `RenderResult`.  A render run either completes
(`ok`), rejects with a thrown JavaScript `TypeError` (`rejected`:
property access on `null`/`undefined` inside the `async` body), or
suspends forever awaiting an unresolved manager promise (`suspended`).
Observable external calls made during the run are collected in a
`RenderTrace`.
-/

namespace JLRenderer

/-- Identity of an external `WidgetManager` instance. -/
abbrev ManagerId := Nat

/-- Opaque widget model handle returned by `manager.get_model`. -/
abbrev WModel := Nat

/-- Opaque widget view handle returned by `manager.display_model`. -/
abbrev WView := Nat

/-- One entry of a mime bundle's `data` record: the payload stored under a
mime-type key, holding at least a mutable `model_id` string. -/
structure MimeSource where
  model_id : String
deriving DecidableEq, Repr

/-- A mime bundle (`IRenderMime.IMimeModel`): its `data` record, modelled as
an association list from mime-type key to payload. -/
structure MimeModel where
  data : List (String × MimeSource)
deriving DecidableEq, Repr

/-- JavaScript property lookup `model.data[mimeType]`: the first entry under
the key, or `none` (i.e. `undefined`) when the key is absent. -/
def lookupMime : List (String × MimeSource) → String → Option MimeSource
  | [], _ => none
  | (k, v) :: rest, key => if k = key then some v else lookupMime rest key

/-- Mutation `source.model_id = newId` performed through the reference
obtained by `model.data[mimeType]`: updates the first entry under the key. -/
def setModelId : List (String × MimeSource) → String → String → List (String × MimeSource)
  | [], _, _ => []
  | (k, v) :: rest, key, newId =>
    if k = key then (k, { v with model_id := newId }) :: rest
    else (k, v) :: setModelId rest key newId

/-- Behaviour of the external `WidgetManager` during one render run:
the outcome of `get_model` per id, the outcome of `display_model` per
model, and the `restoredStatus` snapshot. -/
structure ManagerOracle where
  get_model : String → Except String WModel
  display_model : WModel → Except String WView
  restoredStatus : Bool

/-- The `WidgetRenderer` instance state.
`managerCell` models the `_manager` field: `some none` is an unresolved
`PromiseDelegate`, `some (some m)` a delegate resolved to manager `m`,
and `none` the field after `dispose` set it to `null`.
`subscriptions` records, in order, every `value.restored.connect(...)`
call issued by the `manager` setter. -/
structure RendererState where
  mimeType : String
  textContent : String
  hasWidgetClass : Bool
  hidden : Bool
  attached : List WView
  managerCell : Option (Option ManagerId)
  rerenderMimeModel : Option MimeModel
  panelDisposed : Bool
  subscriptions : List ManagerId
deriving DecidableEq, Repr

/-- External calls observed during one render run, plus the disposal
observers registered on constructed views. -/
structure RenderTrace where
  get_model_calls : List String
  display_model_calls : List WModel
  consoleErrors : Nat
  disposalHandlers : List WView
deriving DecidableEq, Repr

/-- The empty trace. -/
def RenderTrace.empty : RenderTrace := ⟨[], [], 0, []⟩

/-- Outcome of one `renderModel` run. -/
inductive RenderResult where
  | ok (s : RendererState) (t : RenderTrace)
  | rejected (s : RendererState) (t : RenderTrace)
  | suspended (s : RendererState)
deriving DecidableEq, Repr

/-- Whether the run completed successfully (the returned promise resolved). -/
def RenderResult.isOk : RenderResult → Bool
  | .ok _ _ => true
  | _ => false

/-- Whether the run rejected (a `TypeError` escaped the `async` body). -/
def RenderResult.isRejected : RenderResult → Bool
  | .rejected _ _ => true
  | _ => false

/-- The adapter state when the run settled (or suspended). -/
def RenderResult.state : RenderResult → RendererState
  | .ok s _ => s
  | .rejected s _ => s
  | .suspended s => s

/-- The trace of external calls made by the run. -/
def RenderResult.trace : RenderResult → RenderTrace
  | .ok _ t => t
  | .rejected _ t => t
  | .suspended _ => RenderTrace.empty

namespace WidgetRenderer

/-- `get isDisposed(): boolean { return this._manager === null; }` -/
def isDisposed (s : RendererState) : Bool :=
  s.managerCell.isNone

/-- The `manager` setter: `value.restored.connect(this._rerender, this);
this._manager.resolve(value);`.  The connect call is recorded in
`subscriptions`; `PromiseDelegate.resolve` fulfils the promise only on
first call (later calls are ignored by JS promise semantics).  When
`_manager` is `null` (after dispose) the `resolve` access throws. -/
def setManager (s : RendererState) (value : ManagerId) : Except String RendererState :=
  let s := { s with subscriptions := s.subscriptions ++ [value] }
  match s.managerCell with
  | none => Except.error "TypeError: null has no resolve"
  | some none => Except.ok { s with managerCell := some (some value) }
  | some (some _) => Except.ok s

/-- The constructor: stores the mime type and, when a manager is supplied,
invokes the `manager` setter on it. -/
def construct (mimeType : String) (manager : Option ManagerId) : RendererState :=
  let s : RendererState :=
    { mimeType := mimeType
      textContent := ""
      hasWidgetClass := false
      hidden := false
      attached := []
      managerCell := some none
      rerenderMimeModel := none
      panelDisposed := false
      subscriptions := [] }
  match manager with
  | none => s
  | some m => ((setManager s m).toOption).getD s

/-- `dispose(): void` — early-returns when already disposed, otherwise
runs `super.dispose()` (Lumino panel disposal) and sets `_manager = null`. -/
def dispose (s : RendererState) : RendererState :=
  if isDisposed s then s
  else { s with panelDisposed := true, managerCell := none }

/-- `async renderModel(model)` translated line by line.  The run:
sets the loading placeholder and widget class; awaits `_manager.promise`
(rejecting when `_manager` is `null`, suspending when never resolved);
reads `source.model_id` (rejecting when the bundle has no entry under
the mime type); hides on the empty id; asks the manager for the model,
on failure either reporting a terminal error (`restoredStatus` true) or
recording the bundle for retry; on success clears the retry record,
asks for the view, reports a view-construction error, or attaches the
view and registers its disposal observer. -/
def renderModel (s : RendererState) (model : MimeModel) (M : ManagerOracle) : RenderResult :=
  let source := lookupMime model.data s.mimeType
  let s := { s with textContent := "Loading widget...", hasWidgetClass := true }
  match s.managerCell with
  | none => RenderResult.rejected s RenderTrace.empty
  | some none => RenderResult.suspended s
  | some (some _mgr) =>
    match source with
    | none => RenderResult.rejected s RenderTrace.empty
    | some source =>
      if source.model_id = "" then
        RenderResult.ok { s with hidden := true } RenderTrace.empty
      else
        match M.get_model source.model_id with
        | Except.error _err =>
          if M.restoredStatus then
            RenderResult.ok
              { s with textContent := "Error displaying widget: model not found"
                       hasWidgetClass := true }
              { RenderTrace.empty with get_model_calls := [source.model_id]
                                       consoleErrors := 1 }
          else
            RenderResult.ok { s with rerenderMimeModel := some model }
              { RenderTrace.empty with get_model_calls := [source.model_id] }
        | Except.ok wModel =>
          let s := { s with rerenderMimeModel := none }
          match M.display_model wModel with
          | Except.error _err =>
            RenderResult.ok
              { s with textContent := "Error displaying widget"
                       hasWidgetClass := true }
              { RenderTrace.empty with get_model_calls := [source.model_id]
                                       display_model_calls := [wModel]
                                       consoleErrors := 1 }
          | Except.ok widget =>
            RenderResult.ok
              { s with textContent := ""
                       attached := s.attached ++ [widget] }
              { RenderTrace.empty with get_model_calls := [source.model_id]
                                       display_model_calls := [wModel]
                                       disposalHandlers := [widget] }

/-- The `_rerender` slot fired by the manager's `restored` signal: when a
pending-retry bundle is held, clear the error display and re-invoke
`renderModel` on that bundle; otherwise do nothing.  The second
component lists the `renderModel` invocations it made. -/
def rerenderSlot (s : RendererState) (M : ManagerOracle) : RenderResult × List MimeModel :=
  match s.rerenderMimeModel with
  | none => (RenderResult.ok s RenderTrace.empty, [])
  | some mm =>
    let s := { s with textContent := "", hasWidgetClass := false }
    (renderModel s mm M, [mm])

/-- The observer registered on `widget.disposed` by a successful render:
hides the container and clears `source.model_id` to the empty string,
through the reference into the bundle. -/
def onWidgetDisposed (s : RendererState) (model : MimeModel) : RendererState × MimeModel :=
  ({ s with hidden := true }, { model with data := setModelId model.data s.mimeType "" })

end WidgetRenderer

/-! Concrete fixtures used to evaluate the embedding on closed inputs. -/

/-- The widget-view mime type used by the fixtures. -/
def fxMime : String := "application/vnd.jupyter.widget-view+json"

/-- A freshly constructed adapter with manager `1` bound. -/
def fxState : RendererState := WidgetRenderer.construct fxMime (some 1)

/-- A bundle whose entry under the widget mime type has model id `"m1"`. -/
def fxBundleM1 : MimeModel := ⟨[(fxMime, ⟨"m1"⟩)]⟩

/-- A bundle whose entry under the widget mime type has the empty model id. -/
def fxBundleEmptyId : MimeModel := ⟨[(fxMime, ⟨""⟩)]⟩

/-- A bundle with no entry under the widget mime type. -/
def fxBundleNoEntry : MimeModel := ⟨[("text/plain", ⟨"m1"⟩)]⟩

/-- Oracle: `get_model` resolves to model `7`, `display_model` to view `42`. -/
def fxOracleOk : ManagerOracle := ⟨fun _ => .ok 7, fun _ => .ok 42, true⟩

/-- Oracle: `get_model` rejects while `restoredStatus` is `true`. -/
def fxOracleFailRestored : ManagerOracle := ⟨fun _ => .error "nf", fun m => .ok m, true⟩

/-- Oracle: `get_model` rejects while `restoredStatus` is `false`. -/
def fxOracleFailPending : ManagerOracle := ⟨fun _ => .error "nf", fun m => .ok m, false⟩

/-- Oracle: `get_model` resolves to model `7`, `display_model` rejects. -/
def fxOracleDispFail : ManagerOracle := ⟨fun _ => .ok 7, fun _ => .error "boom", true⟩

/-! Helper lemma about bundle mutation. -/

/-- Looking up the key after `setModelId` returns the looked-up payload with
its `model_id` replaced. -/
theorem lookupMime_setModelId (l : List (String × MimeSource)) (key newId : String) :
    lookupMime (setModelId l key newId) key =
      (lookupMime l key).map fun v => { v with model_id := newId } := by
  induction l with
  | nil => rfl
  | cons hd tl ih =>
    obtain ⟨k, v⟩ := hd
    by_cases hk : k = key
    · simp [setModelId, lookupMime, hk]
    · simp [setModelId, lookupMime, hk, ih]

/-! Claim theorems. -/

/-- C1 (counterexample): the claim that `renderModel` never rejects is
false at concrete inputs: with a bound manager, a bundle whose `data` has no
entry under the adapter's mime type makes the run reject (a `TypeError` from
reading `model_id` of `undefined`), and calling `renderModel` after `dispose`
rejects (a `TypeError` from reading `promise` of `null`). -/
theorem c1_renderModel_rejects_counterexample :
    (WidgetRenderer.renderModel fxState fxBundleNoEntry fxOracleOk).isRejected = true
    ∧ (WidgetRenderer.renderModel (WidgetRenderer.dispose fxState) fxBundleM1
        fxOracleOk).isRejected = true := by
  constructor <;> rfl

/-- C1 (amended): for every mime bundle whose `data` has an entry under the
adapter's mime type, a call to `renderModel` on an undisposed adapter whose
manager promise is resolved completes successfully and never rejects,
whatever the outcomes of `get_model` and `display_model`. -/
theorem c1_renderModel_completes (s : RendererState) (model : MimeModel)
    (M : ManagerOracle) (mgr : ManagerId) (src : MimeSource)
    (hcell : s.managerCell = some (some mgr))
    (hsrc : lookupMime model.data s.mimeType = some src) :
    (WidgetRenderer.renderModel s model M).isOk = true := by
  unfold WidgetRenderer.renderModel
  simp only [hcell, hsrc]
  by_cases hid : src.model_id = ""
  · simp [hid, RenderResult.isOk]
  · cases hg : M.get_model src.model_id with
    | error e =>
      by_cases hr : M.restoredStatus <;> simp [hid, hg, hr, RenderResult.isOk]
    | ok w =>
      cases hd : M.display_model w <;> simp [hid, hg, hd, RenderResult.isOk]

/-- C1 witness: the amended completion theorem applied at a concrete
resolved adapter, a bundle carrying an entry for the mime type, and an
oracle whose calls all succeed. -/
theorem c1_renderModel_completes_witness :
    fxState.managerCell = some (some 1)
    ∧ lookupMime fxBundleM1.data fxState.mimeType = some ⟨"m1"⟩
    ∧ (WidgetRenderer.renderModel fxState fxBundleM1 fxOracleOk).isOk = true :=
  ⟨by rfl, by rfl,
    c1_renderModel_completes fxState fxBundleM1 fxOracleOk 1 ⟨"m1"⟩ (by rfl) (by rfl)⟩

/-- C2 (counterexample): the terminal-failure path does not clear a
previously recorded pending-retry bundle.  Concretely: a first render of
`fxBundleM1` fails transiently (recording the bundle), a second render of
the same bundle then fails with `restoredStatus` true — afterwards the
pending-retry bundle is still recorded and a subsequent `restored`
notification is not a no-op: it re-invokes `renderModel` on the stale
bundle. -/
theorem c2_stale_retry_counterexample :
    ((WidgetRenderer.renderModel
        (WidgetRenderer.renderModel fxState fxBundleM1 fxOracleFailPending).state
        fxBundleM1 fxOracleFailRestored).state).rerenderMimeModel = some fxBundleM1
    ∧ (WidgetRenderer.rerenderSlot
        (WidgetRenderer.renderModel
          (WidgetRenderer.renderModel fxState fxBundleM1 fxOracleFailPending).state
          fxBundleM1 fxOracleFailRestored).state fxOracleOk).2 = [fxBundleM1] := by
  constructor <;> rfl

/-- C2 (amended): when `get_model` fails while `restoredStatus` is true, the
render sets the container text to the model-not-found error message, reports
the error to the diagnostic channel, and does not itself record a
pending-retry bundle; provided the adapter held no pending-retry bundle
before the render, every subsequent `restored` notification is a no-op. -/
theorem c2_terminal_failure_no_retry (s : RendererState) (model : MimeModel)
    (M : ManagerOracle) (mgr : ManagerId) (src : MimeSource) (e : String)
    (hcell : s.managerCell = some (some mgr))
    (hsrc : lookupMime model.data s.mimeType = some src)
    (hne : src.model_id ≠ "")
    (hg : M.get_model src.model_id = Except.error e)
    (hr : M.restoredStatus = true)
    (hpend : s.rerenderMimeModel = none) :
    ((WidgetRenderer.renderModel s model M).state).textContent =
        "Error displaying widget: model not found"
    ∧ ((WidgetRenderer.renderModel s model M).trace).consoleErrors = 1
    ∧ ((WidgetRenderer.renderModel s model M).state).rerenderMimeModel = none
    ∧ ∀ M2, WidgetRenderer.rerenderSlot (WidgetRenderer.renderModel s model M).state M2 =
        (RenderResult.ok (WidgetRenderer.renderModel s model M).state RenderTrace.empty, []) := by
  have hres : WidgetRenderer.renderModel s model M =
      RenderResult.ok
        { s with textContent := "Error displaying widget: model not found"
                 hasWidgetClass := true }
        { RenderTrace.empty with get_model_calls := [src.model_id], consoleErrors := 1 } := by
    unfold WidgetRenderer.renderModel
    simp [hcell, hsrc, hne, hg, hr]
  refine ⟨by simp [hres, RenderResult.state], by simp [hres, RenderResult.trace],
          by simp [hres, RenderResult.state, hpend], ?_⟩
  intro M2
  simp [hres, RenderResult.state, WidgetRenderer.rerenderSlot, hpend]

/-- C2 witness: the amended theorem applied at a fresh adapter (no recorded
pending-retry bundle), the `"m1"` bundle, and the oracle whose `get_model`
fails with `restoredStatus` true. -/
theorem c2_terminal_failure_no_retry_witness :
    fxState.managerCell = some (some 1)
    ∧ fxState.rerenderMimeModel = none
    ∧ ((WidgetRenderer.renderModel fxState fxBundleM1 fxOracleFailRestored).state).textContent =
        "Error displaying widget: model not found" :=
  ⟨by rfl, by rfl,
    (c2_terminal_failure_no_retry fxState fxBundleM1 fxOracleFailRestored 1 ⟨"m1"⟩ "nf"
      (by rfl) (by rfl) (by decide) (by rfl) (by rfl) (by rfl)).1⟩

/-- C3: when `get_model` fails while `restoredStatus` is false, the render
completes with the container still in the loading state (no error text), the
exact mime bundle is recorded as the pending-retry target, and a subsequent
`restored` notification makes exactly one retried `renderModel` invocation
on that exact bundle. -/
theorem c3_transient_failure_records_retry (s : RendererState) (model : MimeModel)
    (M : ManagerOracle) (mgr : ManagerId) (src : MimeSource) (e : String)
    (hcell : s.managerCell = some (some mgr))
    (hsrc : lookupMime model.data s.mimeType = some src)
    (hne : src.model_id ≠ "")
    (hg : M.get_model src.model_id = Except.error e)
    (hr : M.restoredStatus = false) :
    (WidgetRenderer.renderModel s model M).isOk = true
    ∧ ((WidgetRenderer.renderModel s model M).state).textContent = "Loading widget..."
    ∧ ((WidgetRenderer.renderModel s model M).state).rerenderMimeModel = some model
    ∧ ∀ M2, (WidgetRenderer.rerenderSlot (WidgetRenderer.renderModel s model M).state M2).2 =
        [model] := by
  have hres : WidgetRenderer.renderModel s model M =
      RenderResult.ok { s with textContent := "Loading widget..."
                               hasWidgetClass := true
                               rerenderMimeModel := some model }
        { RenderTrace.empty with get_model_calls := [src.model_id] } := by
    unfold WidgetRenderer.renderModel
    simp [hcell, hsrc, hne, hg, hr]
  refine ⟨by simp [hres, RenderResult.isOk], by simp [hres, RenderResult.state],
          by simp [hres, RenderResult.state], ?_⟩
  intro M2
  simp [hres, RenderResult.state, WidgetRenderer.rerenderSlot]

/-- C3 witness: the theorem applied at a fresh adapter, the `"m1"` bundle and
the oracle whose `get_model` fails with `restoredStatus` false. -/
theorem c3_transient_failure_records_retry_witness :
    fxState.managerCell = some (some 1)
    ∧ ((WidgetRenderer.renderModel fxState fxBundleM1 fxOracleFailPending).state).rerenderMimeModel
        = some fxBundleM1 :=
  ⟨by rfl,
    (c3_transient_failure_records_retry fxState fxBundleM1 fxOracleFailPending 1 ⟨"m1"⟩ "nf"
      (by rfl) (by rfl) (by decide) (by rfl) (by rfl)).2.2.1⟩

/-- C4: for every mime bundle whose entry under the adapter's mime type has
the empty string as model id, `renderModel` (on a resolved adapter) hides the
container, completes successfully, and performs no manager queries: neither
`get_model` nor `display_model` is invoked. -/
theorem c4_empty_model_id_hides (s : RendererState) (model : MimeModel)
    (M : ManagerOracle) (mgr : ManagerId) (src : MimeSource)
    (hcell : s.managerCell = some (some mgr))
    (hsrc : lookupMime model.data s.mimeType = some src)
    (hid : src.model_id = "") :
    (WidgetRenderer.renderModel s model M).isOk = true
    ∧ ((WidgetRenderer.renderModel s model M).state).hidden = true
    ∧ ((WidgetRenderer.renderModel s model M).trace).get_model_calls = []
    ∧ ((WidgetRenderer.renderModel s model M).trace).display_model_calls = [] := by
  have hres : WidgetRenderer.renderModel s model M =
      RenderResult.ok { s with textContent := "Loading widget..."
                               hasWidgetClass := true
                               hidden := true } RenderTrace.empty := by
    unfold WidgetRenderer.renderModel
    simp [hcell, hsrc, hid]
  exact ⟨by simp [hres, RenderResult.isOk], by simp [hres, RenderResult.state],
         by simp [hres, RenderResult.trace, RenderTrace.empty],
         by simp [hres, RenderResult.trace, RenderTrace.empty]⟩

/-- C4 witness: the theorem applied at a fresh adapter and the bundle whose
entry has the empty model id. -/
theorem c4_empty_model_id_hides_witness :
    fxState.managerCell = some (some 1)
    ∧ ((WidgetRenderer.renderModel fxState fxBundleEmptyId fxOracleOk).state).hidden = true :=
  ⟨by rfl,
    (c4_empty_model_id_hides fxState fxBundleEmptyId fxOracleOk 1 ⟨""⟩
      (by rfl) (by rfl) (by rfl)).2.1⟩

/-- C5: when `get_model` succeeds but `display_model` fails, the container
shows the generic error message, the error is reported to the diagnostic
channel, no pending-retry bundle is recorded, and every later `restored`
notification is a no-op. -/
theorem c5_display_error_no_retry (s : RendererState) (model : MimeModel)
    (M : ManagerOracle) (mgr : ManagerId) (src : MimeSource) (w : WModel) (e : String)
    (hcell : s.managerCell = some (some mgr))
    (hsrc : lookupMime model.data s.mimeType = some src)
    (hne : src.model_id ≠ "")
    (hg : M.get_model src.model_id = Except.ok w)
    (hd : M.display_model w = Except.error e) :
    ((WidgetRenderer.renderModel s model M).state).textContent = "Error displaying widget"
    ∧ ((WidgetRenderer.renderModel s model M).trace).consoleErrors = 1
    ∧ ((WidgetRenderer.renderModel s model M).state).rerenderMimeModel = none
    ∧ ∀ M2, WidgetRenderer.rerenderSlot (WidgetRenderer.renderModel s model M).state M2 =
        (RenderResult.ok (WidgetRenderer.renderModel s model M).state RenderTrace.empty, []) := by
  have hres : WidgetRenderer.renderModel s model M =
      RenderResult.ok { s with textContent := "Error displaying widget"
                               hasWidgetClass := true
                               rerenderMimeModel := none }
        { RenderTrace.empty with get_model_calls := [src.model_id]
                                 display_model_calls := [w]
                                 consoleErrors := 1 } := by
    unfold WidgetRenderer.renderModel
    simp [hcell, hsrc, hne, hg, hd]
  refine ⟨by simp [hres, RenderResult.state], by simp [hres, RenderResult.trace],
          by simp [hres, RenderResult.state], ?_⟩
  intro M2
  simp [hres, RenderResult.state, WidgetRenderer.rerenderSlot]

/-- C5 witness: the theorem applied at a fresh adapter, the `"m1"` bundle and
the oracle whose `display_model` rejects. -/
theorem c5_display_error_no_retry_witness :
    fxState.managerCell = some (some 1)
    ∧ ((WidgetRenderer.renderModel fxState fxBundleM1 fxOracleDispFail).state).textContent =
        "Error displaying widget" :=
  ⟨by rfl,
    (c5_display_error_no_retry fxState fxBundleM1 fxOracleDispFail 1 ⟨"m1"⟩ 7 "boom"
      (by rfl) (by rfl) (by decide) (by rfl) (by rfl)).1⟩

/-- C6: on full success the container's text is cleared and the constructed
view is attached (and its disposal observer registered); firing that
observer hides the container and resets the bundle entry's `model_id` to the
empty string, and a later render of the mutated bundle short-circuits at the
empty-id check: it completes, hides, and performs no manager queries. -/
theorem c6_success_attach_then_disposal (s : RendererState) (model : MimeModel)
    (M : ManagerOracle) (mgr : ManagerId) (src : MimeSource) (w : WModel) (v : WView)
    (hcell : s.managerCell = some (some mgr))
    (hsrc : lookupMime model.data s.mimeType = some src)
    (hne : src.model_id ≠ "")
    (hg : M.get_model src.model_id = Except.ok w)
    (hd : M.display_model w = Except.ok v) :
    ((WidgetRenderer.renderModel s model M).state).textContent = ""
    ∧ ((WidgetRenderer.renderModel s model M).state).attached = s.attached ++ [v]
    ∧ ((WidgetRenderer.renderModel s model M).trace).disposalHandlers = [v]
    ∧ ((WidgetRenderer.onWidgetDisposed (WidgetRenderer.renderModel s model M).state model).1).hidden
        = true
    ∧ ∀ M2,
        (WidgetRenderer.renderModel
          (WidgetRenderer.onWidgetDisposed (WidgetRenderer.renderModel s model M).state model).1
          (WidgetRenderer.onWidgetDisposed (WidgetRenderer.renderModel s model M).state model).2
          M2).isOk = true
        ∧ ((WidgetRenderer.renderModel
            (WidgetRenderer.onWidgetDisposed (WidgetRenderer.renderModel s model M).state model).1
            (WidgetRenderer.onWidgetDisposed (WidgetRenderer.renderModel s model M).state model).2
            M2).state).hidden = true
        ∧ ((WidgetRenderer.renderModel
            (WidgetRenderer.onWidgetDisposed (WidgetRenderer.renderModel s model M).state model).1
            (WidgetRenderer.onWidgetDisposed (WidgetRenderer.renderModel s model M).state model).2
            M2).trace).get_model_calls = [] := by
  have hres : WidgetRenderer.renderModel s model M =
      RenderResult.ok { s with textContent := ""
                               hasWidgetClass := true
                               rerenderMimeModel := none
                               attached := s.attached ++ [v] }
        { RenderTrace.empty with get_model_calls := [src.model_id]
                                 display_model_calls := [w]
                                 disposalHandlers := [v] } := by
    unfold WidgetRenderer.renderModel
    simp [hcell, hsrc, hne, hg, hd]
  refine ⟨by simp [hres, RenderResult.state], by simp [hres, RenderResult.state],
          by simp [hres, RenderResult.trace],
          by simp [hres, RenderResult.state, WidgetRenderer.onWidgetDisposed], ?_⟩
  intro M2
  have hlook : lookupMime (setModelId model.data s.mimeType "") s.mimeType =
      some { src with model_id := "" } := by
    rw [lookupMime_setModelId, hsrc]
    rfl
  refine ⟨?_, ?_, ?_⟩ <;>
    · rw [hres]
      simp only [RenderResult.state, WidgetRenderer.onWidgetDisposed]
      unfold WidgetRenderer.renderModel
      simp [hcell, hlook, RenderResult.isOk, RenderResult.state, RenderResult.trace,
        RenderTrace.empty]

/-- C6 witness: the theorem applied at a fresh adapter, the `"m1"` bundle and
the fully succeeding oracle, which attaches view `42`. -/
theorem c6_success_attach_then_disposal_witness :
    fxState.managerCell = some (some 1)
    ∧ ((WidgetRenderer.renderModel fxState fxBundleM1 fxOracleOk).state).attached =
        fxState.attached ++ [42] :=
  ⟨by rfl,
    (c6_success_attach_then_disposal fxState fxBundleM1 fxOracleOk 1 ⟨"m1"⟩ 7 42
      (by rfl) (by rfl) (by decide) (by rfl) (by rfl)).2.1⟩

/-- C7: `dispose` is idempotent — a second call leaves the adapter state
exactly as after the first; `isDisposed` is false on any freshly constructed
adapter (with or without a manager) and true after any `dispose` call; and
`isDisposed` holds exactly when the internal manager deferred reference has
been released (`_manager === null`). -/
theorem c7_dispose_idempotent :
    (∀ s : RendererState, WidgetRenderer.dispose (WidgetRenderer.dispose s) =
        WidgetRenderer.dispose s)
    ∧ (∀ (mt : String) (mgr : Option ManagerId),
        WidgetRenderer.isDisposed (WidgetRenderer.construct mt mgr) = false)
    ∧ (∀ s : RendererState, WidgetRenderer.isDisposed (WidgetRenderer.dispose s) = true)
    ∧ (∀ s : RendererState, WidgetRenderer.isDisposed s = true ↔ s.managerCell = none) := by
  have hdisp : ∀ s : RendererState,
      WidgetRenderer.isDisposed (WidgetRenderer.dispose s) = true := by
    intro s
    unfold WidgetRenderer.dispose WidgetRenderer.isDisposed
    by_cases h : s.managerCell.isNone = true <;> simp [h]
  refine ⟨?_, ?_, hdisp, ?_⟩
  · intro s
    unfold WidgetRenderer.dispose WidgetRenderer.isDisposed
    by_cases h : s.managerCell.isNone = true <;> simp [h]
  · intro mt mgr
    cases mgr <;> rfl
  · intro s
    unfold WidgetRenderer.isDisposed
    cases h : s.managerCell <;> simp

/-- C8: on an adapter whose manager deferred is already resolved to `m1`,
a second `manager` setter call with `m2` only re-subscribes the re-render
slot to `m2`'s `restored` channel; the deferred still resolves to `m1` and
nothing else in the state changes. -/
theorem c8_second_bind_only_resubscribes (s : RendererState) (m1 m2 : ManagerId)
    (hcell : s.managerCell = some (some m1)) :
    WidgetRenderer.setManager s m2 =
      Except.ok { s with subscriptions := s.subscriptions ++ [m2] } := by
  unfold WidgetRenderer.setManager
  simp [hcell]

/-- C8 witness: the theorem applied at the fixture adapter, already resolved
to manager `1`, rebinding manager `2`. -/
theorem c8_second_bind_only_resubscribes_witness :
    fxState.managerCell = some (some 1)
    ∧ WidgetRenderer.setManager fxState 2 =
        Except.ok { fxState with subscriptions := fxState.subscriptions ++ [2] } :=
  ⟨by rfl, c8_second_bind_only_resubscribes fxState 1 2 (by rfl)⟩

/-- C9: the pending-retry slot holds at most one bundle by construction
(it is an optional field), and every render in which `get_model` succeeds
clears it — whatever the outcome of the subsequent `display_model` call. -/
theorem c9_success_clears_retry (s : RendererState) (model : MimeModel)
    (M : ManagerOracle) (mgr : ManagerId) (src : MimeSource) (w : WModel)
    (hcell : s.managerCell = some (some mgr))
    (hsrc : lookupMime model.data s.mimeType = some src)
    (hne : src.model_id ≠ "")
    (hg : M.get_model src.model_id = Except.ok w) :
    ((WidgetRenderer.renderModel s model M).state).rerenderMimeModel = none
    ∧ ∀ st : RendererState, st.rerenderMimeModel = none
        ∨ ∃ mm : MimeModel, st.rerenderMimeModel = some mm := by
  constructor
  · cases hd : M.display_model w with
    | error e =>
      have hres := (c5_display_error_no_retry s model M mgr src w e
        hcell hsrc hne hg hd).2.2.1
      exact hres
    | ok v =>
      unfold WidgetRenderer.renderModel
      simp [hcell, hsrc, hne, hg, hd, RenderResult.state]
  · intro st
    cases h : st.rerenderMimeModel with
    | none => exact Or.inl rfl
    | some mm => exact Or.inr ⟨mm, rfl⟩

/-- C9 witness: the theorem applied at a fresh adapter, the `"m1"` bundle and
the fully succeeding oracle. -/
theorem c9_success_clears_retry_witness :
    fxState.managerCell = some (some 1)
    ∧ ((WidgetRenderer.renderModel fxState fxBundleM1 fxOracleOk).state).rerenderMimeModel =
        none :=
  ⟨by rfl,
    (c9_success_clears_retry fxState fxBundleM1 fxOracleOk 1 ⟨"m1"⟩ 7
      (by rfl) (by rfl) (by decide) (by rfl)).1⟩

/-- C10: on the empty-model-id path the run returns exactly the input state
with the loading placeholder written, the `jupyter-widgets` class marker
present and the container hidden — nothing else changes, so the placeholder
state set at the start of the render is not undone. -/
theorem c10_empty_id_frame (s : RendererState) (model : MimeModel)
    (M : ManagerOracle) (mgr : ManagerId) (src : MimeSource)
    (hcell : s.managerCell = some (some mgr))
    (hsrc : lookupMime model.data s.mimeType = some src)
    (hid : src.model_id = "") :
    WidgetRenderer.renderModel s model M =
      RenderResult.ok { s with textContent := "Loading widget..."
                               hasWidgetClass := true
                               hidden := true } RenderTrace.empty := by
  unfold WidgetRenderer.renderModel
  simp [hcell, hsrc, hid]

/-- C10 witness: the theorem applied at a fresh adapter and the bundle whose
entry has the empty model id. -/
theorem c10_empty_id_frame_witness :
    lookupMime fxBundleEmptyId.data fxState.mimeType = some ⟨""⟩
    ∧ WidgetRenderer.renderModel fxState fxBundleEmptyId fxOracleOk =
        RenderResult.ok { fxState with textContent := "Loading widget..."
                                       hasWidgetClass := true
                                       hidden := true } RenderTrace.empty :=
  ⟨by rfl, c10_empty_id_frame fxState fxBundleEmptyId fxOracleOk 1 ⟨""⟩ (by rfl) (by rfl) (by rfl)⟩

end JLRenderer
